import Mathlib

/-!
Verification development for the clerk-webhook-novu repository.

The repository contains three near-duplicate Next.js webhook route handlers
(called `post1` for the handler in `src/unnamed/part_001`, `post2` for the
first route handler in `src/unnamed/part_000` — the one using
`verifyClerkWebhook` and `emailPayloadBuilders` — and `post3` for the second
route handler in `src/unnamed/part_000` — the one using `validateHeaders`,
`handleWebhookEvent`, `workflowBuilder`, `subscriberBuilder` and
`payloadBuilder`), plus a `triggerWorkflow` helper
(`src/app/api/notifications/route.ts`).

The handlers are embedded shallowly: JavaScript runtime values are the
inductive `JSVal`; JavaScript expressions that can throw are computations in
`JSM := Except String`; each handler is a pure Lean function from its inputs
(environment secret, request headers and body, an oracle for the external
svix `verify` primitive, and a flag for the downstream Novu trigger outcome)
to an `Outcome` recording the HTTP response, every string passed to the
`verify` primitive, and every trigger call issued.
-/

/-- JavaScript runtime values, as far as the handlers manipulate them. -/
inductive JSVal where
  | undef
  | null
  | bool (b : Bool)
  | num (n : Int)
  | str (s : String)
  | arr (xs : List JSVal)
  | obj (fields : List (String × JSVal))

/-- JavaScript computations that may throw; the error carries the message. -/
abbrev JSM (α : Type) := Except String α

/-- JavaScript truthiness (`if (x)`, `x && y`, `x || y`). -/
def jsTruthy : JSVal → Bool
  | .undef => false
  | .null => false
  | .bool b => b
  | .num n => n != 0
  | .str s => s != ""
  | .arr _ => true
  | .obj _ => true

/-- Disjunction `a || b` in JavaScript: `a` when truthy, otherwise `b`. -/
def jsOr (a b : JSVal) : JSVal := if jsTruthy a then a else b

/-- First-match association-list lookup, the model of property lookup on a
JavaScript object literal. -/
def jsLookup : List (String × JSVal) → String → Option JSVal
  | [], _ => none
  | (k, v) :: fs, key => if k = key then some v else jsLookup fs key

/-- Property access `v.k`: throws a TypeError on `undefined`/`null`, returns
the field (or `undefined` when absent) on objects, and `undefined` on other
primitives. -/
def jsGet : JSVal → String → JSM JSVal
  | .undef, k => .error ("TypeError: Cannot read properties of undefined (reading " ++ k ++ ")")
  | .null, k => .error ("TypeError: Cannot read properties of null (reading " ++ k ++ ")")
  | .obj fs, k => .ok ((jsLookup fs k).getD .undef)
  | _, _ => .ok (.undef)

/-- Optional-chained property access `v?.k`. -/
def jsGetOpt (v : JSVal) (k : String) : JSM JSVal :=
  match v with
  | .undef => .ok .undef
  | .null => .ok .undef
  | _ => jsGet v k

/-- Index access `v[i]`: throws on `undefined`/`null`, element-or-`undefined`
on arrays, `undefined` otherwise. -/
def jsIndex : JSVal → Nat → JSM JSVal
  | .undef, _ => .error "TypeError: Cannot read properties of undefined (reading an index)"
  | .null, _ => .error "TypeError: Cannot read properties of null (reading an index)"
  | .arr xs, i => .ok ((xs.get? i).getD .undef)
  | _, _ => .ok (.undef)

/-- Optional-chained index access `v?.[i]`. -/
def jsIndexOpt (v : JSVal) (i : Nat) : JSM JSVal :=
  match v with
  | .undef => .ok .undef
  | .null => .ok .undef
  | _ => jsIndex v i

/-- Strict equality of a value against a string literal (`v === 's'`). -/
def jsStrEq (v : JSVal) (s : String) : Bool :=
  match v with
  | .str t => t == s
  | _ => false

/-- JavaScript string coercion as used by the handlers: template literals,
string concatenation with `+`, and property keys.  The handlers only ever
coerce `undefined`, `null`, strings, numbers, booleans, and (via
`JSON.parse(response)` in `payloadBuilder`) plain objects, which coerce to
`"[object Object]"`; the array case is never reached by any handler path and
is modelled as the empty string. -/
def jsToString : JSVal → String
  | .undef => "undefined"
  | .null => "null"
  | .bool true => "true"
  | .bool false => "false"
  | .num n => toString n
  | .str s => s
  | .arr _ => ""
  | .obj _ => "[object Object]"

/-- Model of `slug.replace(/_/g, '-')` — replace every underscore with a hyphen.
Since the pattern is a single character, the global regex replace is a
character map. -/
def replaceUnderscores (s : String) : String :=
  String.mk (s.toList.map fun c => if c = '_' then '-' else c)

/-- Model of `v?.replace(/_/g, '-')`: short-circuits to `undefined` on
`undefined`/`null`, replaces on strings, and throws on values with no
`replace` method. -/
def jsReplaceU : JSVal → JSM JSVal
  | .undef => .ok .undef
  | .null => .ok .undef
  | .str s => .ok (.str (replaceUnderscores s))
  | _ => .error "TypeError: replace is not a function"

def braceL : Char := Char.ofNat 123

def braceR : Char := Char.ofNat 125

def isWsChar (c : Char) : Bool := c = ' ' || c = '\n' || c = '\t' || c = '\r'

def skipWs : List Char → List Char
  | [] => []
  | c :: cs => if isWsChar c then skipWs cs else c :: cs

def isDigitChar (c : Char) : Bool := '0' ≤ c && c ≤ '9'

def digitsToNat : List Char → Nat → Nat
  | [], acc => acc
  | c :: cs, acc => digitsToNat cs (acc * 10 + (c.toNat - '0'.toNat))

/-- Split a leading run of decimal digits from the rest. -/
def takeDigits : List Char → List Char × List Char
  | [] => ([], [])
  | c :: cs =>
    if isDigitChar c then
      let (ds, r) := takeDigits cs
      (c :: ds, r)
    else ([], c :: cs)

/-- Consume characters up to a closing double quote (JSON string contents;
escape sequences are not used by any input in this development). -/
def takeStr : List Char → Option (List Char × List Char)
  | [] => none
  | c :: cs =>
    if c = '"' then some ([], cs)
    else
      match takeStr cs with
      | some (s, r) => some (c :: s, r)
      | none => none

/-- Consume an exact literal. -/
def stripLit : List Char → List Char → Option (List Char)
  | [], cs => some cs
  | _ :: _, [] => none
  | l :: ls, c :: cs => if c = l then stripLit ls cs else none

/-- Parsing mode: a single value, the tail of an array (after the first
element), or the tail of an object (after the first member). -/
inductive PMode where
  | val
  | arrTail
  | objTail

/-- Modelled from the JavaScript `JSON.parse` primitive used by the handlers
(`await req.json()` and `payloadBuilder`): a fuel-indexed recursive-descent
JSON reader covering `null`, booleans, integers, escape-free strings, arrays
and objects, with JS whitespace skipping; anything else is a `SyntaxError`,
as in JS.  The fuel only bounds nesting depth; `jsonParseStr` supplies
enough for its input. -/
def parseF : Nat → PMode → List Char → JSM (JSVal × List Char)
  | 0, _, _ => .error "SyntaxError: input too nested"
  | Nat.succ f, PMode.val, cs =>
    match skipWs cs with
    | [] => .error "SyntaxError: Unexpected end of JSON input"
    | c :: rest =>
      if c = 'n' then
        match stripLit ['u', 'l', 'l'] rest with
        | some r => .ok (.null, r)
        | none => .error "SyntaxError: Unexpected token"
      else if c = 't' then
        match stripLit ['r', 'u', 'e'] rest with
        | some r => .ok (.bool true, r)
        | none => .error "SyntaxError: Unexpected token"
      else if c = 'f' then
        match stripLit ['a', 'l', 's', 'e'] rest with
        | some r => .ok (.bool false, r)
        | none => .error "SyntaxError: Unexpected token"
      else if c = '"' then
        match takeStr rest with
        | some (s, r) => .ok (.str (String.mk s), r)
        | none => .error "SyntaxError: Unterminated string"
      else if c = '-' then
        match takeDigits rest with
        | ([], _) => .error "SyntaxError: Unexpected token"
        | (ds, r) => .ok (.num (-(Int.ofNat (digitsToNat ds 0))), r)
      else if isDigitChar c then
        match takeDigits (c :: rest) with
        | (ds, r) => .ok (.num (Int.ofNat (digitsToNat ds 0)), r)
      else if c = '[' then
        match skipWs rest with
        | ']' :: r => .ok (.arr [], r)
        | rest2 =>
          match parseF f PMode.val rest2 with
          | .error e => .error e
          | .ok (v, r1) =>
            match parseF f PMode.arrTail r1 with
            | .error e => .error e
            | .ok (.arr xs, r2) => .ok (.arr (v :: xs), r2)
            | .ok _ => .error "SyntaxError: Unexpected token"
      else if c = braceL then
        match skipWs rest with
        | [] => .error "SyntaxError: Unexpected end of JSON input"
        | c2 :: r0 =>
          if c2 = braceR then .ok (.obj [], r0)
          else if c2 = '"' then
            match takeStr r0 with
            | none => .error "SyntaxError: Unterminated string"
            | some (k, r1) =>
              match skipWs r1 with
              | ':' :: r2 =>
                match parseF f PMode.val r2 with
                | .error e => .error e
                | .ok (v, r3) =>
                  match parseF f PMode.objTail r3 with
                  | .error e => .error e
                  | .ok (.obj fs2, r4) => .ok (.obj ((String.mk k, v) :: fs2), r4)
                  | .ok _ => .error "SyntaxError: Unexpected token"
              | _ => .error "SyntaxError: Expected colon"
          else .error "SyntaxError: Expected property name"
      else .error "SyntaxError: Unexpected token"
  | Nat.succ f, PMode.arrTail, cs =>
    match skipWs cs with
    | [] => .error "SyntaxError: Unexpected end of JSON input"
    | c :: r =>
      if c = ']' then .ok (.arr [], r)
      else if c = ',' then
        match parseF f PMode.val r with
        | .error e => .error e
        | .ok (v, r1) =>
          match parseF f PMode.arrTail r1 with
          | .error e => .error e
          | .ok (.arr xs, r2) => .ok (.arr (v :: xs), r2)
          | .ok _ => .error "SyntaxError: Unexpected token"
      else .error "SyntaxError: Expected comma or closing bracket"
  | Nat.succ f, PMode.objTail, cs =>
    match skipWs cs with
    | [] => .error "SyntaxError: Unexpected end of JSON input"
    | c :: r =>
      if c = braceR then .ok (.obj [], r)
      else if c = ',' then
        match skipWs r with
        | '"' :: r0 =>
          match takeStr r0 with
          | none => .error "SyntaxError: Unterminated string"
          | some (k, r1) =>
            match skipWs r1 with
            | ':' :: r2 =>
              match parseF f PMode.val r2 with
              | .error e => .error e
              | .ok (v, r3) =>
                match parseF f PMode.objTail r3 with
                | .error e => .error e
                | .ok (.obj fs2, r4) => .ok (.obj ((String.mk k, v) :: fs2), r4)
                | .ok _ => .error "SyntaxError: Unexpected token"
            | _ => .error "SyntaxError: Expected colon"
        | _ => .error "SyntaxError: Expected property name"
      else .error "SyntaxError: Expected comma or closing brace"

/-- Entry point of `JSON.parse` on a string: parse one value and require only whitespace to
remain. -/
def jsonParseStr (s : String) : JSM JSVal :=
  match parseF (s.length + 2) PMode.val s.toList with
  | .error e => .error e
  | .ok (v, rest) =>
    match skipWs rest with
    | [] => .ok v
    | _ => .error "SyntaxError: Unexpected non-whitespace character after JSON"

def commaJoin : List String → String
  | [] => ""
  | [s] => s
  | s :: s2 :: r => s ++ "," ++ commaJoin (s2 :: r)

/-- Modelled from the JavaScript `JSON.stringify` primitive used by the
handlers (`const body = JSON.stringify(payload)`): minified serialization
(no key escaping is needed for the values that arise from `jsonParseStr`).
The fuel bounds depth; `jsonStringify` supplies `sizeOf`, which dominates
the depth. -/
def stringifyF : Nat → JSVal → String
  | 0, _ => ""
  | Nat.succ f, v =>
    match v with
    | .undef => "null"
    | .null => "null"
    | .bool true => "true"
    | .bool false => "false"
    | .num n => toString n
    | .str s => "\"" ++ s ++ "\""
    | .arr xs => "[" ++ commaJoin (xs.map (stringifyF f)) ++ "]"
    | .obj fs =>
        String.mk [braceL]
          ++ commaJoin (fs.map fun p => "\"" ++ p.1 ++ "\":" ++ stringifyF f p.2)
          ++ String.mk [braceR]

/-- Entry point of `JSON.stringify` on a value.  The fuel is passed by the handlers as the
length of the request body plus two, i.e. the same fuel with which the value
was parsed; it dominates the value's depth, so the serialization is complete.
-/
def jsonStringify (fuel : Nat) (v : JSVal) : String := stringifyF fuel v

/-- An HTTP response produced by a handler (`new Response(body, { status })`).
-/
structure Resp where
  status : Nat
  body : String

/-- One invocation of the external `novu.trigger` capability, as issued via
`triggerWorkflow(workflowId, subscriber, payload)`. -/
structure TriggerCall where
  workflowId : String
  subscriber : JSVal
  payload : JSVal

/-- What one handler invocation did: the HTTP response (`none` means an
uncaught exception escaped the handler, so no `Response` object was
returned), every string passed to the svix `verify` primitive, and every
trigger call issued, in order. -/
structure Outcome where
  response : Option Resp
  verifyCalls : List String
  triggers : List TriggerCall

/-- The three svix headers once all were found present. -/
structure SvixHeaders where
  id : String
  timestamp : String
  signature : String

/-- Oracle for the external svix `webhook.verify(body, headers)` primitive:
given the signing secret the `Webhook` was constructed with, the body
string, and the three headers, it either returns the decoded event or
throws.  The claims quantify over this oracle. -/
def VerifyFn : Type := String → String → SvixHeaders → JSM JSVal

/-- An inbound request: raw body text plus the three svix headers as
returned by `headers().get(...)` (`none` models a `null` absent header). -/
structure Request where
  body : String
  svixId : Option String
  svixTimestamp : Option String
  svixSignature : Option String

/-- Falsiness check `!headerPayload.get("svix-...")`: absent (`null`) and empty-string
headers are both falsy. -/
def hdrMissing (h : Option String) : Bool := h.getD "" = ""

/-- From `src/app/api/notifications/route.ts` (and its `part_000` twin):
`triggerWorkflow` calls `novu.trigger` and catches any failure, returning a
200 or 500 `Response`; it never throws.  The success of the remote call is
the `trigOk` parameter. -/
def triggerWorkflow (trigOk : Bool) (workflowId : String) (subscriber payload : JSVal) :
    TriggerCall × Resp :=
  (⟨workflowId, subscriber, payload⟩,
    if trigOk then ⟨200, "Notification triggered"⟩
    else ⟨500, "Error triggering notification"⟩)

/-- Result of running one statement block of event handling: `err` is the
message of an exception propagating out of the block (if any), `triggers`
the trigger calls it issued before finishing or throwing. -/
structure HRes where
  err : Option String
  triggers : List TriggerCall

/-- Sequencing of two statement blocks: the second runs only when the first
did not throw; issued trigger calls accumulate. -/
def HRes.andThen (a : HRes) (b : Unit → HRes) : HRes :=
  match a.err with
  | some e => ⟨some e, a.triggers⟩
  | none =>
    let r := b ()
    ⟨r.err, a.triggers ++ r.triggers⟩

/-- A guard whose condition may itself throw (`if (cond) { body }`). -/
def guarded (cond : JSM Bool) (body : Unit → HRes) : HRes :=
  match cond with
  | .error e => ⟨some e, []⟩
  | .ok true => body ()
  | .ok false => ⟨none, []⟩

/-- Comparison `evt.type === 't'`, re-evaluated at each `if` as in the source. -/
def typeIs (evt : JSVal) (t : String) : JSM Bool := do
  let ty ← jsGet evt "type"
  pure (jsStrEq ty t)

/-- From `src/unnamed/part_001` lines 55-70: the `user.created` subscriber
object literal, field initializers evaluated in source order.  Note the
unguarded `data.email_addresses[0].email_address` (twice: once for
`subscriberId`, once for `email`). -/
def buildSubscriber1 (data : JSVal) : JSM JSVal := do
  let ea ← jsGet data "email_addresses"
  let e0 ← jsIndex ea 0
  let em ← jsGet e0 "email_address"
  let fn ← jsGet data "first_name"
  let ln ← jsGet data "last_name"
  let ea2 ← jsGet data "email_addresses"
  let e02 ← jsIndex ea2 0
  let em2 ← jsGet e02 "email_address"
  let pn ← jsGet data "phone_numbers"
  let p0 ← jsIndexOpt pn 0
  let ph ← jsGetOpt p0 "phone_number"
  let av ← jsGet data "image_url"
  let ca ← jsGet data "created_at"
  let lsi ← jsGet data "last_sign_in_at"
  let ua ← jsGet data "updated_at"
  let un ← jsGet data "username"
  let uid ← jsGet data "id"
  pure (.obj [
    ("subscriberId", .str ("clerk_" ++ jsToString (jsOr em (.str "")))),
    ("firstName", jsOr fn (.str "")),
    ("lastName", jsOr ln (.str "")),
    ("email", jsOr em2 (.str "")),
    ("phone", jsOr ph (.str "")),
    ("locale", .str "en_US"),
    ("avatar", jsOr av (.str "")),
    ("data", .obj [
      ("clerkCreatedAt", jsOr ca (.str "")),
      ("lastSignInAt", jsOr lsi (.str "")),
      ("clerkUpdatedAt", jsOr ua (.str "")),
      ("username", jsOr un (.str "")),
      ("clerkUserId", jsOr uid (.str ""))])])

/-- From `src/unnamed/part_001` lines 51-78: the `user.created` branch body.
The leading `console.log("userId:", evt.data.id, ...)` dereferences
`evt.data.id`; the trigger call is inside `try/catch` (and `triggerWorkflow`
never throws anyway). -/
def userCreatedBody1 (trigOk : Bool) (evt : JSVal) : HRes :=
  match (do
      let d0 ← jsGet evt "data"
      let _ ← jsGet d0 "id"
      let data ← jsGet evt "data"
      buildSubscriber1 data) with
  | .error e => ⟨some e, []⟩
  | .ok sub =>
    let (call, _r) := triggerWorkflow trigOk "clerk-user-created" sub (.obj [])
    ⟨none, [call]⟩

/-- The statement `console.log("userId:", evt.data.id)` in the `user.updated` and
`user.deleted` branches of `part_001`: no trigger, but the property chain
can throw. -/
def logUserIdBody (evt : JSVal) : HRes :=
  match (do
      let d ← jsGet evt "data"
      jsGet d "id") with
  | .error e => ⟨some e, []⟩
  | .ok _ => ⟨none, []⟩

/-- From `src/unnamed/part_001` lines 97-111 (`verification_code` payload):
note `subject` is read from `data` (not `data.data`), and
`data.data.app.name` is dereferenced without a guard. -/
def vcPayload1 (data dd : JSVal) : JSM JSVal := do
  let subj ← jsGet data "subject"
  let otp ← jsGet dd "otp_code"
  let app ← jsGet dd "app"
  let an ← jsGet app "name"
  let rb ← jsGet dd "requested_by"
  let rf ← jsGet dd "requested_from"
  let ra ← jsGet dd "requested_at"
  let rb2 ← jsGet dd "requested_by"
  pure (.obj [("body", .obj [("data", .obj [
    ("subject", jsOr subj (.str "")),
    ("otp_code", jsOr otp (.str "")),
    ("app", .obj [("name", jsOr an (.str ""))]),
    ("requested_by", jsOr rb (.str "")),
    ("requested_from", jsOr rf (.str "")),
    ("requested_at", jsOr ra (.str "")),
    ("device", jsOr rb2 (.str ""))])])])

/-- From `src/unnamed/part_001` lines 115-129 (`password_changed` payload).
-/
def pcPayload1 (data dd : JSVal) : JSM JSVal := do
  let subj ← jsGet data "subject"
  let gn ← jsGet dd "greeting_name"
  let pe ← jsGet dd "primary_email_address"
  let app ← jsGet dd "app"
  let an ← jsGet app "name"
  let rb ← jsGet dd "requested_by"
  let rf ← jsGet dd "requested_from"
  let ra ← jsGet dd "requested_at"
  let rb2 ← jsGet dd "requested_by"
  pure (.obj [("body", .obj [("data", .obj [
    ("subject", jsOr subj (.str "")),
    ("greeting_name", jsOr gn (.str "")),
    ("primary_email_address", jsOr pe (.str "")),
    ("app", .obj [("name", jsOr an (.str ""))]),
    ("requested_by", jsOr rb (.str "")),
    ("requested_from", jsOr rf (.str "")),
    ("requested_at", jsOr ra (.str "")),
    ("device", jsOr rb2 (.str ""))])])])

/-- From `src/unnamed/part_001` lines 134-148 (`magic_link_sign_in`
payload). -/
def mlPayload1 (data dd : JSVal) : JSM JSVal := do
  let subj ← jsGet data "subject"
  let ml ← jsGet dd "magic_link"
  let app ← jsGet dd "app"
  let an ← jsGet app "name"
  let ttl ← jsGet dd "ttl_minutes"
  let rb ← jsGet dd "requested_by"
  let rf ← jsGet dd "requested_from"
  let ra ← jsGet dd "requested_at"
  let rb2 ← jsGet dd "requested_by"
  pure (.obj [("body", .obj [("data", .obj [
    ("subject", jsOr subj (.str "")),
    ("magic_link", jsOr ml (.str "")),
    ("app", .obj [("name", jsOr an (.str ""))]),
    ("ttl_minutes", jsOr ttl (.str "")),
    ("requested_by", jsOr rb (.str "")),
    ("requested_from", jsOr rf (.str "")),
    ("requested_at", jsOr ra (.str "")),
    ("device", jsOr rb2 (.str ""))])])])

/-- From `src/unnamed/part_001` lines 153-167 (`reset_password_code`
payload). -/
def rpPayload1 (data dd : JSVal) : JSM JSVal := do
  let subj ← jsGet data "subject"
  let otp ← jsGet dd "otp_code"
  let app ← jsGet dd "app"
  let an ← jsGet app "name"
  let rb ← jsGet dd "requested_by"
  let rf ← jsGet dd "requested_from"
  let ra ← jsGet dd "requested_at"
  let rb2 ← jsGet dd "requested_by"
  pure (.obj [("body", .obj [("data", .obj [
    ("subject", jsOr subj (.str "")),
    ("otp_code", jsOr otp (.str "")),
    ("app", .obj [("name", jsOr an (.str ""))]),
    ("requested_by", jsOr rb (.str "")),
    ("requested_from", jsOr rf (.str "")),
    ("requested_at", jsOr ra (.str "")),
    ("device", jsOr rb2 (.str ""))])])])

/-- From `src/unnamed/part_001` lines 171-187 (`organization_invitation`
payload): `data.data.org.name` and `data.data.app.name` both unguarded. -/
def oiPayload1 (data dd : JSVal) : JSM JSVal := do
  let subj ← jsGet data "subject"
  let inv ← jsGet dd "inviter_name"
  let org ← jsGet dd "org"
  let ogn ← jsGet org "name"
  let app ← jsGet dd "app"
  let an ← jsGet app "name"
  let au ← jsGet dd "action_url"
  let rb ← jsGet dd "requested_by"
  let rf ← jsGet dd "requested_from"
  let ra ← jsGet dd "requested_at"
  let rb2 ← jsGet dd "requested_by"
  pure (.obj [("body", .obj [("data", .obj [
    ("subject", jsOr subj (.str "")),
    ("inviter_name", jsOr inv (.str "")),
    ("org_name", jsOr ogn (.str "")),
    ("app", .obj [("name", jsOr an (.str ""))]),
    ("action_url", jsOr au (.str "")),
    ("requested_by", jsOr rb (.str "")),
    ("requested_from", jsOr rf (.str "")),
    ("requested_at", jsOr ra (.str "")),
    ("device", jsOr rb2 (.str ""))])])])

/-- From `src/unnamed/part_001` lines 191-205 (`invitation` payload). -/
def inPayload1 (data dd : JSVal) : JSM JSVal := do
  let subj ← jsGet data "subject"
  let otp ← jsGet dd "otp_code"
  let app ← jsGet dd "app"
  let an ← jsGet app "name"
  let rb ← jsGet dd "requested_by"
  let rf ← jsGet dd "requested_from"
  let ra ← jsGet dd "requested_at"
  let rb2 ← jsGet dd "requested_by"
  pure (.obj [("body", .obj [("data", .obj [
    ("subject", jsOr subj (.str "")),
    ("otp_code", jsOr otp (.str "")),
    ("app", .obj [("name", jsOr an (.str ""))]),
    ("requested_by", jsOr rb (.str "")),
    ("requested_from", jsOr rf (.str "")),
    ("requested_at", jsOr ra (.str "")),
    ("device", jsOr rb2 (.str ""))])])])

/-- One `if (data.slug === slug && data.data) { const payload = ...; await
triggerWorkflow(wfId, subscriber, payload) }` block of `part_001`'s
`email.created` section, with `&&` short-circuit evaluation. -/
def emailBranch1 (trigOk : Bool) (data sub : JSVal) (slug wfId : String)
    (mk : JSVal → JSVal → JSM JSVal) : HRes :=
  match jsGet data "slug" with
  | .error e => ⟨some e, []⟩
  | .ok sv =>
    if jsStrEq sv slug then
      match jsGet data "data" with
      | .error e => ⟨some e, []⟩
      | .ok dd =>
        if jsTruthy dd then
          match mk data dd with
          | .error e => ⟨some e, []⟩
          | .ok pl =>
            let (call, _r) := triggerWorkflow trigOk wfId sub pl
            ⟨none, [call]⟩
        else ⟨none, []⟩
    else ⟨none, []⟩

/-- From `src/unnamed/part_001` lines 89-208: the `email.created` branch
body — destination subscriber, then six sequential slug-matched template
blocks, each triggering a fixed `clerk-`-prefixed workflow literal. -/
def emailBody1 (trigOk : Bool) (evt : JSVal) : HRes :=
  match (do
      let data ← jsGet evt "data"
      let toA ← jsGet data "to_email_address"
      pure (data, JSVal.obj [
        ("subscriberId", .str ("clerk_" ++ jsToString (jsOr toA (.str "")))),
        ("email", jsOr toA (.str ""))])) with
  | .error e => ⟨some e, []⟩
  | .ok (data, sub) =>
    (emailBranch1 trigOk data sub "verification_code" "clerk-verification-code" vcPayload1).andThen fun _ =>
    (emailBranch1 trigOk data sub "password_changed" "clerk-password-changed" pcPayload1).andThen fun _ =>
    (emailBranch1 trigOk data sub "magic_link_sign_in" "clerk-magic-link-sign-in" mlPayload1).andThen fun _ =>
    (emailBranch1 trigOk data sub "reset_password_code" "clerk-reset-password-code" rpPayload1).andThen fun _ =>
    (emailBranch1 trigOk data sub "organization_invitation" "clerk-organization-invitation" oiPayload1).andThen fun _ =>
    emailBranch1 trigOk data sub "invitation" "clerk-invitation" inPayload1

/-- From `src/unnamed/part_001` lines 51-208: the sequence of event-type
branches after verification. -/
def eventHandling1 (trigOk : Bool) (evt : JSVal) : HRes :=
  (guarded (typeIs evt "user.created") fun _ => userCreatedBody1 trigOk evt).andThen fun _ =>
  (guarded (typeIs evt "user.updated") fun _ => logUserIdBody evt).andThen fun _ =>
  (guarded (typeIs evt "user.deleted") fun _ => logUserIdBody evt).andThen fun _ =>
  guarded (typeIs evt "email.created") fun _ => emailBody1 trigOk evt

/-- From `src/unnamed/part_001` (`POST`): secret check (an uncaught `throw`
when absent), header check (400), `await req.json()` (uncaught throw on
malformed JSON), `JSON.stringify`, `wh.verify` (400 on failure), event
handling (faults escape), 200 response. -/
def post1 (verify : VerifyFn) (secret : Option String) (trigOk : Bool) (req : Request) : Outcome :=
  if hdrMissing secret then ⟨none, [], []⟩
  else if hdrMissing req.svixId || hdrMissing req.svixTimestamp || hdrMissing req.svixSignature then
    ⟨some ⟨400, "Error: Missing Svix headers"⟩, [], []⟩
  else
    match jsonParseStr req.body with
    | .error _ => ⟨none, [], []⟩
    | .ok payload =>
      let body := jsonStringify (req.body.length + 2) payload
      match verify (secret.getD "") body
          ⟨req.svixId.getD "", req.svixTimestamp.getD "", req.svixSignature.getD ""⟩ with
      | .error _ => ⟨some ⟨400, "Error: Verification error"⟩, [body], []⟩
      | .ok evt =>
        let r := eventHandling1 trigOk evt
        match r.err with
        | some _ => ⟨none, [body], r.triggers⟩
        | none => ⟨some ⟨200, "Webhook received"⟩, [body], r.triggers⟩

/-- Shared field mapping of the `user.created` subscriber in both `part_000`
handlers (`POST` lines 144-156 inline literal, and `subscriberBuilder` lines
313-325 — the two are textually identical): `subscriberId` is the raw
provider user id, and the first email entry is reached via
`data.email_addresses[0]?.email_address` — the optional chain guards the
entry, not the list. -/
def subscriberFields (data : JSVal) : JSM JSVal := do
  let idv ← jsGet data "id"
  let fn ← jsGet data "first_name"
  let ln ← jsGet data "last_name"
  let ea ← jsGet data "email_addresses"
  let e0 ← jsIndex ea 0
  let em ← jsGetOpt e0 "email_address"
  let pn ← jsGet data "phone_numbers"
  let p0 ← jsIndexOpt pn 0
  let ph ← jsGetOpt p0 "phone_number"
  let av ← jsGet data "image_url"
  let un ← jsGet data "username"
  let uid ← jsGet data "id"
  pure (.obj [
    ("subscriberId", idv),
    ("firstName", jsOr fn (.str "")),
    ("lastName", jsOr ln (.str "")),
    ("email", jsOr em (.str "")),
    ("phone", jsOr ph (.str "")),
    ("locale", .str "en_US"),
    ("avatar", jsOr av (.str "")),
    ("data", .obj [
      ("username", jsOr un (.str "")),
      ("clerkUserId", jsOr uid (.str ""))])])

/-- From `src/unnamed/part_000` lines 65-73: the `verification_code` builder
of `emailPayloadBuilders` — flat payload, `subject` read from the nested
email data, `app?.name` optional-chained. -/
def vcBuilder (emailData : JSVal) : JSM JSVal := do
  let subj ← jsGet emailData "subject"
  let otp ← jsGet emailData "otp_code"
  let app ← jsGet emailData "app"
  let an ← jsGetOpt app "name"
  let rb ← jsGet emailData "requested_by"
  let rf ← jsGet emailData "requested_from"
  let ra ← jsGet emailData "requested_at"
  let rb2 ← jsGet emailData "requested_by"
  pure (.obj [
    ("subject", jsOr subj (.str "")),
    ("otp_code", jsOr otp (.str "")),
    ("app", .obj [("name", jsOr an (.str ""))]),
    ("requested_by", jsOr rb (.str "")),
    ("requested_from", jsOr rf (.str "")),
    ("requested_at", jsOr ra (.str "")),
    ("device", jsOr rb2 (.str ""))])

/-- From `src/unnamed/part_000` lines 74-83: the `password_changed` builder.
-/
def pcBuilder (emailData : JSVal) : JSM JSVal := do
  let subj ← jsGet emailData "subject"
  let gn ← jsGet emailData "greeting_name"
  let pe ← jsGet emailData "primary_email_address"
  let app ← jsGet emailData "app"
  let an ← jsGetOpt app "name"
  let rb ← jsGet emailData "requested_by"
  let rf ← jsGet emailData "requested_from"
  let ra ← jsGet emailData "requested_at"
  let rb2 ← jsGet emailData "requested_by"
  pure (.obj [
    ("subject", jsOr subj (.str "")),
    ("greeting_name", jsOr gn (.str "")),
    ("primary_email_address", jsOr pe (.str "")),
    ("app", .obj [("name", jsOr an (.str ""))]),
    ("requested_by", jsOr rb (.str "")),
    ("requested_from", jsOr rf (.str "")),
    ("requested_at", jsOr ra (.str "")),
    ("device", jsOr rb2 (.str ""))])

/-- From `src/unnamed/part_000` lines 84-93: the `magic_link_sign_in`
builder. -/
def mlBuilder (emailData : JSVal) : JSM JSVal := do
  let subj ← jsGet emailData "subject"
  let ml ← jsGet emailData "magic_link"
  let app ← jsGet emailData "app"
  let an ← jsGetOpt app "name"
  let ttl ← jsGet emailData "ttl_minutes"
  let rb ← jsGet emailData "requested_by"
  let rf ← jsGet emailData "requested_from"
  let ra ← jsGet emailData "requested_at"
  let rb2 ← jsGet emailData "requested_by"
  pure (.obj [
    ("subject", jsOr subj (.str "")),
    ("magic_link", jsOr ml (.str "")),
    ("app", .obj [("name", jsOr an (.str ""))]),
    ("ttl_minutes", jsOr ttl (.str "")),
    ("requested_by", jsOr rb (.str "")),
    ("requested_from", jsOr rf (.str "")),
    ("requested_at", jsOr ra (.str "")),
    ("device", jsOr rb2 (.str ""))])

/-- From `src/unnamed/part_000` lines 94-102: the `reset_password_code`
builder — note the flat `app_name` key here, unlike the nested `app` record
of the other builders. -/
def rpBuilder (emailData : JSVal) : JSM JSVal := do
  let subj ← jsGet emailData "subject"
  let otp ← jsGet emailData "otp_code"
  let app ← jsGet emailData "app"
  let an ← jsGetOpt app "name"
  let rb ← jsGet emailData "requested_by"
  let rf ← jsGet emailData "requested_from"
  let ra ← jsGet emailData "requested_at"
  let rb2 ← jsGet emailData "requested_by"
  pure (.obj [
    ("subject", jsOr subj (.str "")),
    ("otp_code", jsOr otp (.str "")),
    ("app_name", jsOr an (.str "")),
    ("requested_by", jsOr rb (.str "")),
    ("requested_from", jsOr rf (.str "")),
    ("requested_at", jsOr ra (.str "")),
    ("device", jsOr rb2 (.str ""))])

/-- From `src/unnamed/part_000` lines 103-113: the `organization_invitation`
builder — `org?.name` optional-chained. -/
def oiBuilder (emailData : JSVal) : JSM JSVal := do
  let subj ← jsGet emailData "subject"
  let inv ← jsGet emailData "inviter_name"
  let org ← jsGet emailData "org"
  let ogn ← jsGetOpt org "name"
  let app ← jsGet emailData "app"
  let an ← jsGetOpt app "name"
  let au ← jsGet emailData "action_url"
  let rb ← jsGet emailData "requested_by"
  let rf ← jsGet emailData "requested_from"
  let ra ← jsGet emailData "requested_at"
  let rb2 ← jsGet emailData "requested_by"
  pure (.obj [
    ("subject", jsOr subj (.str "")),
    ("inviter_name", jsOr inv (.str "")),
    ("org_name", jsOr ogn (.str "")),
    ("app", .obj [("name", jsOr an (.str ""))]),
    ("action_url", jsOr au (.str "")),
    ("requested_by", jsOr rb (.str "")),
    ("requested_from", jsOr rf (.str "")),
    ("requested_at", jsOr ra (.str "")),
    ("device", jsOr rb2 (.str ""))])

/-- From `src/unnamed/part_000` lines 114-122: the `invitation` builder. -/
def inBuilder (emailData : JSVal) : JSM JSVal := do
  let subj ← jsGet emailData "subject"
  let otp ← jsGet emailData "otp_code"
  let app ← jsGet emailData "app"
  let an ← jsGetOpt app "name"
  let rb ← jsGet emailData "requested_by"
  let rf ← jsGet emailData "requested_from"
  let ra ← jsGet emailData "requested_at"
  let rb2 ← jsGet emailData "requested_by"
  pure (.obj [
    ("subject", jsOr subj (.str "")),
    ("otp_code", jsOr otp (.str "")),
    ("app", .obj [("name", jsOr an (.str ""))]),
    ("requested_by", jsOr rb (.str "")),
    ("requested_from", jsOr rf (.str "")),
    ("requested_at", jsOr ra (.str "")),
    ("device", jsOr rb2 (.str ""))])

/-- From `src/unnamed/part_000` lines 64-123: the slug-to-payload-builder
mapping (`emailPayloadBuilders`), in source order. -/
def emailPayloadBuilders : List (String × (JSVal → JSM JSVal)) :=
  [("verification_code", vcBuilder),
   ("password_changed", pcBuilder),
   ("magic_link_sign_in", mlBuilder),
   ("reset_password_code", rpBuilder),
   ("organization_invitation", oiBuilder),
   ("invitation", inBuilder)]

/-- Property lookup `emailPayloadBuilders[key]`. -/
def lookupBuilder (key : String) : Option (JSVal → JSM JSVal) :=
  match emailPayloadBuilders.find? (fun p => p.1 = key) with
  | some p => some p.2
  | none => none

/-- From `src/unnamed/part_000` lines 212-247 (`verifyClerkWebhook`): secret
check, header check, `await req.json()` + `JSON.stringify`, then
`webhook.verify` with the verification failure re-thrown as
`"Webhook verification failed"`.  Returns the thrown message or the event,
paired with the list of bodies passed to `verify`. -/
def verifyClerkWebhook (verify : VerifyFn) (secret : Option String) (req : Request) :
    Except String JSVal × List String :=
  if hdrMissing secret then
    (.error "Error: Please add CLERK_SIGNING_SECRET from Clerk Dashboard to .env or .env.local", [])
  else if hdrMissing req.svixId || hdrMissing req.svixTimestamp || hdrMissing req.svixSignature then
    (.error "Missing Svix headers", [])
  else
    match jsonParseStr req.body with
    | .error e => (.error e, [])
    | .ok payload =>
      let body := jsonStringify (req.body.length + 2) payload
      match verify (secret.getD "") body
          ⟨req.svixId.getD "", req.svixTimestamp.getD "", req.svixSignature.getD ""⟩ with
      | .error _ => (.error "Webhook verification failed", [body])
      | .ok evt => (.ok evt, [body])

/-- From `src/unnamed/part_000` lines 142-170: the `user.created` branch of
the first `part_000` handler; the trigger call sits in `try/catch`. -/
def userCreatedBody2 (trigOk : Bool) (evt : JSVal) : HRes :=
  match (do
      let data ← jsGet evt "data"
      subscriberFields data) with
  | .error e => ⟨some e, []⟩
  | .ok sub =>
    let (call, _r) := triggerWorkflow trigOk "clerk-user-created" sub (.obj [])
    ⟨none, [call]⟩

/-- From `src/unnamed/part_000` lines 173-201: the `email.created` branch of
the first `part_000` handler — builder table lookup with key
`data.slug || ''`, workflow id derived as
`` `${data.slug?.replace(/_/g, '-') || ''}` ``, trigger in `try/catch`. -/
def emailBody2 (trigOk : Bool) (evt : JSVal) : HRes :=
  match (do
      let data ← jsGet evt "data"
      let dd ← jsGet data "data"
      let toA ← jsGet data "to_email_address"
      pure (data, dd, JSVal.obj [
        ("subscriberId", .str ("clerk_" ++ jsToString (jsOr toA (.str "")))),
        ("email", jsOr toA (.str ""))])) with
  | .error e => ⟨some e, []⟩
  | .ok (data, dd, sub) =>
    match jsGet data "slug" with
    | .error e => ⟨some e, []⟩
    | .ok sv =>
      match lookupBuilder (jsToString (jsOr sv (.str ""))) with
      | none => ⟨none, []⟩
      | some b =>
        if jsTruthy dd then
          match b dd with
          | .error e => ⟨some e, []⟩
          | .ok pl =>
            match jsGet data "slug" with
            | .error e => ⟨some e, []⟩
            | .ok sv2 =>
              match jsReplaceU sv2 with
              | .error e => ⟨some e, []⟩
              | .ok rv =>
                let wf := jsToString (jsOr rv (.str ""))
                let (call, _r) := triggerWorkflow trigOk wf sub pl
                ⟨none, [call]⟩
        else ⟨none, []⟩

/-- From `src/unnamed/part_000` lines 142-201: the two event-type branches
of the first `part_000` handler. -/
def eventHandling2 (trigOk : Bool) (evt : JSVal) : HRes :=
  (guarded (typeIs evt "user.created") fun _ => userCreatedBody2 trigOk evt).andThen fun _ =>
  guarded (typeIs evt "email.created") fun _ => emailBody2 trigOk evt

/-- From `src/unnamed/part_000` lines 131-204 (the first `POST`): any
message thrown by `verifyClerkWebhook` (or by `req.json()` inside it) is
caught and returned as `error.message or "Webhook verification failed"` with
status 400; faults in event handling escape; otherwise 200. -/
def post2 (verify : VerifyFn) (secret : Option String) (trigOk : Bool) (req : Request) : Outcome :=
  match verifyClerkWebhook verify secret req with
  | (.error msg, vc) =>
    ⟨some ⟨400, if msg = "" then "Webhook verification failed" else msg⟩, vc, []⟩
  | (.ok evt, vc) =>
    let r := eventHandling2 trigOk evt
    match r.err with
    | some _ => ⟨none, vc, r.triggers⟩
    | none => ⟨some ⟨200, "Webhook received"⟩, vc, r.triggers⟩

/-- From `src/unnamed/part_000` lines 294-302 (`workflowBuilder`):
`"user-created"` for `user.created`, the hyphenated slug (via
`` `${event.data.slug?.replace(/_/g, '-') || ''}` ``) for `email.created`,
`""` otherwise. -/
def workflowBuilder (evt : JSVal) : JSM String := do
  let t ← jsGet evt "type"
  if jsStrEq t "user.created" then
    pure "user-created"
  else
    let t2 ← jsGet evt "type"
    if jsStrEq t2 "email.created" then do
      let d ← jsGet evt "data"
      let sv ← jsGet d "slug"
      let rv ← jsReplaceU sv
      pure (jsToString (jsOr rv (.str "")))
    else
      pure ""

/-- From `src/unnamed/part_000` lines 304-326 (`subscriberBuilder`): takes
the whole event, reads `response.data`, and builds the same field mapping as
`subscriberFields`. -/
def subscriberBuilder (response : JSVal) : JSM JSVal := do
  let webhookData ← jsGet response "data"
  subscriberFields webhookData

/-- From `src/unnamed/part_000` lines 328-331 (`payloadBuilder`):
`JSON.parse(response)` — the event object is coerced to a string and parsed
as JSON. -/
def payloadBuilder (response : JSVal) : JSM JSVal :=
  jsonParseStr (jsToString response)

/-- From `src/unnamed/part_000` lines 281-292 (`handleWebhookEvent`): return
early unless the type is `user.created` or `email.created`; otherwise build
workflow, subscriber and payload (any fault propagates) and trigger once. -/
def handleWebhookEvent (trigOk : Bool) (evt : JSVal) : HRes :=
  match (do
      let t1 ← jsGet evt "type"
      if !jsStrEq t1 "user.created" then do
        let t2 ← jsGet evt "type"
        pure (!jsStrEq t2 "email.created")
      else
        pure false) with
  | .error e => ⟨some e, []⟩
  | .ok true => ⟨none, []⟩
  | .ok false =>
    match (do
        let wf ← workflowBuilder evt
        let sub ← subscriberBuilder evt
        let pl ← payloadBuilder evt
        pure (wf, sub, pl)) with
    | .error e => ⟨some e, []⟩
    | .ok (wf, sub, pl) =>
      let (call, _r) := triggerWorkflow trigOk wf sub pl
      ⟨none, [call]⟩

/-- From `src/unnamed/part_000` lines 252-279 (the second `POST`): the whole
body sits in one `try/catch`; every thrown message — missing secret, missing
headers, malformed JSON, verification failure (re-thrown as
`"Verification error"`), or any fault inside `handleWebhookEvent` — is
returned as `` `Error: ${message}` `` with status 400; otherwise 200. -/
def post3 (verify : VerifyFn) (secret : Option String) (trigOk : Bool) (req : Request) : Outcome :=
  if hdrMissing secret then
    ⟨some ⟨400, "Error: Please add SIGNING_SECRET from Clerk Dashboard to .env"⟩, [], []⟩
  else if hdrMissing req.svixId || hdrMissing req.svixTimestamp || hdrMissing req.svixSignature then
    ⟨some ⟨400, "Error: Missing Svix headers"⟩, [], []⟩
  else
    match jsonParseStr req.body with
    | .error e => ⟨some ⟨400, "Error: " ++ e⟩, [], []⟩
    | .ok payload =>
      let body := jsonStringify (req.body.length + 2) payload
      match verify (secret.getD "") body
          ⟨req.svixId.getD "", req.svixTimestamp.getD "", req.svixSignature.getD ""⟩ with
      | .error _ => ⟨some ⟨400, "Error: Verification error"⟩, [body], []⟩
      | .ok evt =>
        match handleWebhookEvent trigOk evt with
        | ⟨some e, trigs⟩ => ⟨some ⟨400, "Error: " ++ e⟩, [body], trigs⟩
        | ⟨none, trigs⟩ => ⟨some ⟨200, "Webhook received"⟩, [body], trigs⟩

/-- A verify oracle that accepts every request and decodes it to a fixed
event — used to instantiate claims that quantify over the external svix
primitive. -/
def oracleConst (evt : JSVal) : VerifyFn := fun _ _ _ => .ok evt

/-- A verify oracle that rejects every request. -/
def oracleFail : VerifyFn := fun _ _ _ => .error "No matching signature found"

/-- A well-formed request with all three svix headers and the JSON body
`"0"`. -/
def reqStd : Request := ⟨"0", some "msg_1", some "1700000000", some "v1,sig"⟩

/-- A request missing the `svix-id` header. -/
def reqNoId : Request := ⟨"0", none, some "1700000000", some "v1,sig"⟩

/-- A request whose raw body `"[1, 2]"` is valid JSON but is not in the
minified form produced by `JSON.stringify`. -/
def reqWs : Request := ⟨"[1, 2]", some "msg_1", some "1700000000", some "v1,sig"⟩

/-- A `user.created` event with id `usr_1`, first email `a@example.com` and
first name `Ada` — the literal round-trip scenario of the specification. -/
def evtU : JSVal :=
  .obj [("type", .str "user.created"),
        ("data", .obj [("id", .str "usr_1"),
                       ("email_addresses", .arr [.obj [("email_address", .str "a@example.com")]]),
                       ("first_name", .str "Ada")])]

/-- An `email.created` event with slug `verification_code`, a destination
address, and nested data carrying an `otp_code` and an `app.name`. -/
def evtE : JSVal :=
  .obj [("type", .str "email.created"),
        ("data", .obj [("slug", .str "verification_code"),
                       ("to_email_address", .str "b@example.com"),
                       ("data", .obj [("otp_code", .str "424242"),
                                      ("app", .obj [("name", .str "MyApp")])])])]

/-- Like `evtE` but the nested data carries no `app` record. -/
def evtENoApp : JSVal :=
  .obj [("type", .str "email.created"),
        ("data", .obj [("slug", .str "verification_code"),
                       ("to_email_address", .str "b@example.com"),
                       ("data", .obj [("otp_code", .str "424242")])])]

/-- A `user.created` event whose `email_addresses` list is present but
empty. -/
def evtUEmptyList : JSVal :=
  .obj [("type", .str "user.created"),
        ("data", .obj [("id", .str "usr_1"),
                       ("email_addresses", .arr [])])]

/-- An event whose type is recognized by no branch. -/
def evtIgnored : JSVal := .obj [("type", .str "user.updated.other")]

@[simp]
theorem exbind_ok {α β : Type} (a : α) (f : α → JSM β) : (Except.ok a >>= f) = f a := rfl

@[simp]
theorem exbind_error {α β : Type} (e : String) (f : α → JSM β) :
    ((Except.error e : JSM α) >>= f) = .error e := rfl

@[simp]
theorem expure {α : Type} (a : α) : (pure a : JSM α) = .ok a := rfl

@[simp]
theorem jsGet_obj (fs : List (String × JSVal)) (k : String) :
    jsGet (.obj fs) k = .ok ((jsLookup fs k).getD .undef) := rfl

/-- Optional-chained property access never throws. -/
theorem jsGetOpt_total (v : JSVal) (k : String) : ∃ u, jsGetOpt v k = .ok u := by
  cases v <;> exact ⟨_, rfl⟩

/-- Optional-chained index access never throws. -/
theorem jsIndexOpt_total (v : JSVal) (i : Nat) : ∃ u, jsIndexOpt v i = .ok u := by
  cases v <;> exact ⟨_, rfl⟩

/-- Fallback `(s || '')` keeps a string value unchanged (an empty string falls to the
identical empty-string fallback). -/
theorem jsOr_str_empty (s : String) : jsOr (.str s) (.str "") = .str s := by
  by_cases h : s = "" <;> simp [jsOr, jsTruthy, h]

theorem jsToString_or_str_empty (s : String) : jsToString (jsOr (.str s) (.str "")) = s := by
  rw [jsOr_str_empty]; rfl

/-- Equality `v === 's'` holds exactly when `v` is that string. -/
theorem jsStrEq_iff (v : JSVal) (s : String) : jsStrEq v s = true ↔ v = .str s := by
  cases v <;> simp [jsStrEq]

theorem userCreatedBody1_len (trigOk : Bool) (evt : JSVal) :
    (userCreatedBody1 trigOk evt).triggers.length ≤ 1 := by
  unfold userCreatedBody1
  split <;> simp

theorem logUserIdBody_trig (evt : JSVal) : (logUserIdBody evt).triggers = [] := by
  unfold logUserIdBody
  split <;> rfl

theorem emailBranch1_len (trigOk : Bool) (data sub : JSVal) (slug wfId : String)
    (mk : JSVal → JSVal → JSM JSVal) :
    (emailBranch1 trigOk data sub slug wfId mk).triggers.length ≤ 1 := by
  unfold emailBranch1
  split
  · simp
  · split
    · split
      · simp
      · split
        · split <;> simp
        · simp
    · simp

/-- A slug block whose literal does not match the event's slug issues no
trigger and does not throw. -/
theorem emailBranch1_noMatch (trigOk : Bool) (data sub : JSVal) (slug wfId : String)
    (mk : JSVal → JSVal → JSM JSVal) (sv : JSVal)
    (h : jsGet data "slug" = .ok sv) (hne : jsStrEq sv slug = false) :
    emailBranch1 trigOk data sub slug wfId mk = ⟨none, []⟩ := by
  unfold emailBranch1
  rw [h]
  simp [hne]

theorem userCreatedBody2_len (trigOk : Bool) (evt : JSVal) :
    (userCreatedBody2 trigOk evt).triggers.length ≤ 1 := by
  unfold userCreatedBody2
  split <;> simp

theorem emailBody2_len (trigOk : Bool) (evt : JSVal) :
    (emailBody2 trigOk evt).triggers.length ≤ 1 := by
  unfold emailBody2
  split
  · simp
  · split
    · simp
    · split
      · simp
      · split
        · split
          · simp
          · split
            · simp
            · split <;> simp
        · simp

theorem handleWebhookEvent_len (trigOk : Bool) (evt : JSVal) :
    (handleWebhookEvent trigOk evt).triggers.length ≤ 1 := by
  unfold handleWebhookEvent
  split
  · simp
  · simp
  · split <;> simp

theorem emailBody1_len (trigOk : Bool) (evt : JSVal) :
    (emailBody1 trigOk evt).triggers.length ≤ 1 := by
  unfold emailBody1
  split
  · simp
  · rename_i data sub _
    rcases hslug : jsGet data "slug" with e | sv
    · simp [HRes.andThen, emailBranch1, hslug]
    · rcases sv with _ | _ | b | n | t | xs | fs
      case str =>
        by_cases h1 : t = "verification_code"
        · have h2 : jsStrEq (JSVal.str t) "password_changed" = false := by simp [jsStrEq, h1]
          have h3 : jsStrEq (JSVal.str t) "magic_link_sign_in" = false := by simp [jsStrEq, h1]
          have h4 : jsStrEq (JSVal.str t) "reset_password_code" = false := by simp [jsStrEq, h1]
          have h5 : jsStrEq (JSVal.str t) "organization_invitation" = false := by simp [jsStrEq, h1]
          have h6 : jsStrEq (JSVal.str t) "invitation" = false := by simp [jsStrEq, h1]
          rw [emailBranch1_noMatch _ _ _ _ _ _ _ hslug h2, emailBranch1_noMatch _ _ _ _ _ _ _ hslug h3,
              emailBranch1_noMatch _ _ _ _ _ _ _ hslug h4, emailBranch1_noMatch _ _ _ _ _ _ _ hslug h5,
              emailBranch1_noMatch _ _ _ _ _ _ _ hslug h6]
          simp [HRes.andThen]
          split <;> simp [emailBranch1_len]
        by_cases h2 : t = "password_changed"
        · have g1 : jsStrEq (JSVal.str t) "verification_code" = false := by simp [jsStrEq, h1]
          have g3 : jsStrEq (JSVal.str t) "magic_link_sign_in" = false := by simp [jsStrEq, h2]
          have g4 : jsStrEq (JSVal.str t) "reset_password_code" = false := by simp [jsStrEq, h2]
          have g5 : jsStrEq (JSVal.str t) "organization_invitation" = false := by simp [jsStrEq, h2]
          have g6 : jsStrEq (JSVal.str t) "invitation" = false := by simp [jsStrEq, h2]
          rw [emailBranch1_noMatch _ _ _ _ _ _ _ hslug g1, emailBranch1_noMatch _ _ _ _ _ _ _ hslug g3,
              emailBranch1_noMatch _ _ _ _ _ _ _ hslug g4, emailBranch1_noMatch _ _ _ _ _ _ _ hslug g5,
              emailBranch1_noMatch _ _ _ _ _ _ _ hslug g6]
          simp [HRes.andThen]
          split <;> simp [emailBranch1_len]
        by_cases h3 : t = "magic_link_sign_in"
        · have g1 : jsStrEq (JSVal.str t) "verification_code" = false := by simp [jsStrEq, h1]
          have g2 : jsStrEq (JSVal.str t) "password_changed" = false := by simp [jsStrEq, h2]
          have g4 : jsStrEq (JSVal.str t) "reset_password_code" = false := by simp [jsStrEq, h3]
          have g5 : jsStrEq (JSVal.str t) "organization_invitation" = false := by simp [jsStrEq, h3]
          have g6 : jsStrEq (JSVal.str t) "invitation" = false := by simp [jsStrEq, h3]
          rw [emailBranch1_noMatch _ _ _ _ _ _ _ hslug g1, emailBranch1_noMatch _ _ _ _ _ _ _ hslug g2,
              emailBranch1_noMatch _ _ _ _ _ _ _ hslug g4, emailBranch1_noMatch _ _ _ _ _ _ _ hslug g5,
              emailBranch1_noMatch _ _ _ _ _ _ _ hslug g6]
          simp [HRes.andThen]
          split <;> simp [emailBranch1_len]
        by_cases h4 : t = "reset_password_code"
        · have g1 : jsStrEq (JSVal.str t) "verification_code" = false := by simp [jsStrEq, h1]
          have g2 : jsStrEq (JSVal.str t) "password_changed" = false := by simp [jsStrEq, h2]
          have g3 : jsStrEq (JSVal.str t) "magic_link_sign_in" = false := by simp [jsStrEq, h3]
          have g5 : jsStrEq (JSVal.str t) "organization_invitation" = false := by simp [jsStrEq, h4]
          have g6 : jsStrEq (JSVal.str t) "invitation" = false := by simp [jsStrEq, h4]
          rw [emailBranch1_noMatch _ _ _ _ _ _ _ hslug g1, emailBranch1_noMatch _ _ _ _ _ _ _ hslug g2,
              emailBranch1_noMatch _ _ _ _ _ _ _ hslug g3, emailBranch1_noMatch _ _ _ _ _ _ _ hslug g5,
              emailBranch1_noMatch _ _ _ _ _ _ _ hslug g6]
          simp [HRes.andThen]
          split <;> simp [emailBranch1_len]
        by_cases h5 : t = "organization_invitation"
        · have g1 : jsStrEq (JSVal.str t) "verification_code" = false := by simp [jsStrEq, h1]
          have g2 : jsStrEq (JSVal.str t) "password_changed" = false := by simp [jsStrEq, h2]
          have g3 : jsStrEq (JSVal.str t) "magic_link_sign_in" = false := by simp [jsStrEq, h3]
          have g4 : jsStrEq (JSVal.str t) "reset_password_code" = false := by simp [jsStrEq, h4]
          have g6 : jsStrEq (JSVal.str t) "invitation" = false := by simp [jsStrEq, h5]
          rw [emailBranch1_noMatch _ _ _ _ _ _ _ hslug g1, emailBranch1_noMatch _ _ _ _ _ _ _ hslug g2,
              emailBranch1_noMatch _ _ _ _ _ _ _ hslug g3, emailBranch1_noMatch _ _ _ _ _ _ _ hslug g4,
              emailBranch1_noMatch _ _ _ _ _ _ _ hslug g6]
          simp [HRes.andThen]
          split <;> simp [emailBranch1_len]
        · have g1 : jsStrEq (JSVal.str t) "verification_code" = false := by simp [jsStrEq, h1]
          have g2 : jsStrEq (JSVal.str t) "password_changed" = false := by simp [jsStrEq, h2]
          have g3 : jsStrEq (JSVal.str t) "magic_link_sign_in" = false := by simp [jsStrEq, h3]
          have g4 : jsStrEq (JSVal.str t) "reset_password_code" = false := by simp [jsStrEq, h4]
          have g5 : jsStrEq (JSVal.str t) "organization_invitation" = false := by simp [jsStrEq, h5]
          rw [emailBranch1_noMatch _ _ _ _ _ _ _ hslug g1, emailBranch1_noMatch _ _ _ _ _ _ _ hslug g2,
              emailBranch1_noMatch _ _ _ _ _ _ _ hslug g3, emailBranch1_noMatch _ _ _ _ _ _ _ hslug g4,
              emailBranch1_noMatch _ _ _ _ _ _ _ hslug g5]
          simp [HRes.andThen]
          exact emailBranch1_len _ _ _ _ _ _
      all_goals
        simp [emailBranch1_noMatch _ _ _ _ _ _ _ hslug (by simp [jsStrEq]), HRes.andThen]

@[simp]
theorem guarded_error (e : String) (body : Unit → HRes) :
    guarded (.error e) body = ⟨some e, []⟩ := rfl

@[simp]
theorem guarded_true (body : Unit → HRes) : guarded (.ok true) body = body () := rfl

@[simp]
theorem guarded_false (body : Unit → HRes) : guarded (.ok false) body = ⟨none, []⟩ := rfl

theorem eventHandling1_len (trigOk : Bool) (evt : JSVal) :
    (eventHandling1 trigOk evt).triggers.length ≤ 1 := by
  rcases htype : jsGet evt "type" with e | v
  · simp [eventHandling1, guarded, typeIs, htype, HRes.andThen]
  · have ht : ∀ t, typeIs evt t = .ok (jsStrEq v t) := fun t => by simp [typeIs, htype]
    rcases v with _ | _ | b | n | t | xs | fs
    case str =>
      by_cases h1 : t = "user.created"
      · simp [eventHandling1, ht, jsStrEq, h1, HRes.andThen]
        split <;> simp [userCreatedBody1_len]
      by_cases h2 : t = "user.updated"
      · simp [eventHandling1, ht, jsStrEq, h1, h2, HRes.andThen]
        split <;> simp [logUserIdBody_trig]
      by_cases h3 : t = "user.deleted"
      · simp [eventHandling1, ht, jsStrEq, h1, h2, h3, HRes.andThen]
        split <;> simp [logUserIdBody_trig]
      by_cases h4 : t = "email.created"
      · simp [eventHandling1, ht, jsStrEq, h1, h2, h3, h4, HRes.andThen]
        exact emailBody1_len _ _
      · have e1 : (t == "user.created") = false := by simp [h1]
        have e2 : (t == "user.updated") = false := by simp [h2]
        have e3 : (t == "user.deleted") = false := by simp [h3]
        have e4 : (t == "email.created") = false := by simp [h4]
        simp [eventHandling1, ht, jsStrEq, e1, e2, e3, e4, HRes.andThen]
    all_goals simp [eventHandling1, ht, jsStrEq, HRes.andThen]

theorem eventHandling2_len (trigOk : Bool) (evt : JSVal) :
    (eventHandling2 trigOk evt).triggers.length ≤ 1 := by
  rcases htype : jsGet evt "type" with e | v
  · simp [eventHandling2, guarded, typeIs, htype, HRes.andThen]
  · have ht : ∀ t, typeIs evt t = .ok (jsStrEq v t) := fun t => by simp [typeIs, htype]
    rcases v with _ | _ | b | n | t | xs | fs
    case str =>
      by_cases h1 : t = "user.created"
      · simp [eventHandling2, ht, jsStrEq, h1, HRes.andThen]
        split <;> simp [userCreatedBody2_len]
      by_cases h2 : t = "email.created"
      · simp [eventHandling2, ht, jsStrEq, h1, h2, HRes.andThen]
        exact emailBody2_len _ _
      · have e1 : (t == "user.created") = false := by simp [h1]
        have e2 : (t == "email.created") = false := by simp [h2]
        simp [eventHandling2, ht, jsStrEq, e1, e2, HRes.andThen]
    all_goals simp [eventHandling2, ht, jsStrEq, HRes.andThen]

/-- C1: the claim says the string passed to the signature-verification
primitive is byte-for-byte the raw request body.  In all three handlers the
code instead computes `JSON.stringify(await req.json())`: for the raw body
`"[1, 2]"` every handler passes the re-serialized `"[1,2]"` to `verify`,
which differs from the body received.  (The specification itself states the
verifier must operate on the exact raw bytes, so this is a defect of the
code, exhibited here at a concrete failing input.) -/
theorem verify_receives_reserialized_body :
    (post1 oracleFail (some "whsec_k") true reqWs).verifyCalls = ["[1,2]"]
  ∧ (post2 oracleFail (some "whsec_k") true reqWs).verifyCalls = ["[1,2]"]
  ∧ (post3 oracleFail (some "whsec_k") true reqWs).verifyCalls = ["[1,2]"]
  ∧ reqWs.body = "[1, 2]"
  ∧ "[1,2]" ≠ "[1, 2]" :=
  ⟨rfl, rfl, rfl, rfl, by decide⟩

/-- C9: at most one trigger call is issued per inbound request, in each of
the three handlers: the event type selects at most one of the
`user.created`/`email.created` branches, and within `email.created` the slug
matches at most one template block. -/
theorem at_most_one_trigger_per_request (verify : VerifyFn) (secret : Option String)
    (trigOk : Bool) (req : Request) :
    (post1 verify secret trigOk req).triggers.length ≤ 1
  ∧ (post2 verify secret trigOk req).triggers.length ≤ 1
  ∧ (post3 verify secret trigOk req).triggers.length ≤ 1 := by
  refine ⟨?_, ?_, ?_⟩
  · unfold post1
    split
    · simp
    · split
      · simp
      · split
        · simp
        · dsimp only
          split
          · simp
          · split <;> simp [eventHandling1_len]
  · unfold post2
    split
    · simp
    · dsimp only
      split <;> simp [eventHandling2_len]
  · unfold post3
    split
    · simp
    · split
      · simp
      · split
        · simp
        · dsimp only
          split
          · simp
          · rename_i evt heq
            have hl := handleWebhookEvent_len trigOk evt
            rcases hh : handleWebhookEvent trigOk evt with ⟨err, trigs⟩
            rw [hh] at hl
            rcases err with _ | e <;> simpa using hl

/-- C2 counterexample: a request whose signature verification succeeds (the
oracle decodes it to a well-formed `user.created` event, and the body was
passed to `verify`) for which the second `part_000` handler returns status
400, not 200: its `payloadBuilder` runs `JSON.parse` on the event object
(which coerces to `"[object Object]"`), the resulting `SyntaxError` is
caught by the handler's `try/catch`, and the 400 path is taken. -/
theorem post3_verified_request_returns_400 :
    (post3 (oracleConst evtU) (some "whsec_k") true reqStd).verifyCalls = ["0"]
  ∧ (post3 (oracleConst evtU) (some "whsec_k") true reqStd).response.map Resp.status = some 400
  ∧ (post3 (oracleConst evtU) (some "whsec_k") true reqStd).triggers = []
  ∧ (400 : Nat) ≠ 200 :=
  ⟨rfl, rfl, rfl, by decide⟩

/-- C4 counterexample: in both `part_000` handlers a missing signing secret
is surfaced as a per-request HTTP 400 response — the very same client-error
status used for missing svix headers — differing from those rejections only
in body text, not as a distinct fatal outcome. -/
theorem missing_secret_is_same_400_status :
    (post3 oracleFail none true reqStd).response.map Resp.status = some 400
  ∧ (post3 oracleFail (some "whsec_k") true reqNoId).response.map Resp.status = some 400
  ∧ (post2 oracleFail none true reqStd).response.map Resp.status = some 400
  ∧ (post2 oracleFail (some "whsec_k") true reqNoId).response.map Resp.status = some 400 :=
  ⟨rfl, rfl, rfl, rfl⟩

/-- C4 amended: with the signing secret absent (or empty, which is equally
falsy), none of the handlers processes the request — no verify call, no
trigger.  In `part_001` the thrown configuration error escapes the handler
uncaught (no `Response` at all, hence not the 400 path); in both `part_000`
handlers it is caught per-request and returned as a 400 response whose body
names the missing secret, i.e. the same 400 status class as the
header/verification rejections. -/
theorem missing_secret_blocks_processing (verify : VerifyFn) (secret : Option String)
    (trigOk : Bool) (req : Request) (h : hdrMissing secret = true) :
    post1 verify secret trigOk req = ⟨none, [], []⟩
  ∧ post2 verify secret trigOk req =
      ⟨some ⟨400, "Error: Please add CLERK_SIGNING_SECRET from Clerk Dashboard to .env or .env.local"⟩, [], []⟩
  ∧ post3 verify secret trigOk req =
      ⟨some ⟨400, "Error: Please add SIGNING_SECRET from Clerk Dashboard to .env"⟩, [], []⟩ := by
  unfold post1 post2 verifyClerkWebhook post3
  simp [h]

/-- Witness for the amended C4 at the concrete unconfigured environment. -/
theorem missing_secret_blocks_processing_witness :
    post1 oracleFail none true reqStd = ⟨none, [], []⟩ :=
  (missing_secret_blocks_processing oracleFail none true reqStd (by decide)).1

/-- C5 counterexample: for the literal scenario (id `usr_1`, first email
`a@example.com`, first name `Ada`), the first `part_000` handler's trigger
call carries subscriber identifier `usr_1` — the raw user id — not the
claimed `clerk_a@example.com`. -/
theorem part000_subscriber_identifier_is_raw_id :
    (post2 (oracleConst evtU) (some "whsec_k") true reqStd).triggers.map
      (fun c => (c.workflowId, jsGet c.subscriber "subscriberId"))
      = [("clerk-user-created", .ok (.str "usr_1"))]
  ∧ JSVal.str "usr_1" ≠ JSVal.str "clerk_a@example.com" :=
  ⟨rfl, by simp⟩

/-- C5 amended: on the literal scenario the `part_001` handler produces
exactly the claimed mapping (identifier `clerk_a@example.com`, firstName
`Ada`, workflow `clerk-user-created`); the `part_000` handlers instead use
the raw user id `usr_1` as the subscriber identifier, and the second
`part_000` handler's `workflowBuilder` derives `user-created` (without the
`clerk-` prefix; its trigger is never reached anyway, because
`payloadBuilder` faults). -/
theorem user_created_mapping_per_handler :
    (post1 (oracleConst evtU) (some "whsec_k") true reqStd).triggers.map
      (fun c => (c.workflowId, jsGet c.subscriber "subscriberId", jsGet c.subscriber "firstName"))
      = [("clerk-user-created", .ok (.str "clerk_a@example.com"), .ok (.str "Ada"))]
  ∧ (post2 (oracleConst evtU) (some "whsec_k") true reqStd).triggers.map
      (fun c => (c.workflowId, jsGet c.subscriber "subscriberId", jsGet c.subscriber "firstName"))
      = [("clerk-user-created", .ok (.str "usr_1"), .ok (.str "Ada"))]
  ∧ workflowBuilder evtU = .ok "user-created"
  ∧ (∃ sub, subscriberBuilder evtU = .ok sub ∧ jsGet sub "subscriberId" = .ok (.str "usr_1")) :=
  ⟨rfl, rfl, rfl, ⟨_, rfl, rfl⟩⟩

/-- C6 counterexample: for a verified `email.created` event with recognized
slug `verification_code`, the `part_001` handler passes the fixed literal
`clerk-verification-code` to the trigger call, not the hyphenated slug
`verification-code`. -/
theorem part001_workflow_literal_not_hyphenated_slug :
    (post1 (oracleConst evtE) (some "whsec_k") true reqStd).triggers.map TriggerCall.workflowId
      = ["clerk-verification-code"]
  ∧ replaceUnderscores "verification_code" = "verification-code"
  ∧ "clerk-verification-code" ≠ "verification-code" :=
  ⟨rfl, by decide, by decide⟩

/-- C8 counterexample: in `part_001`, for a verified `email.created` event
with recognized slug `verification_code` and non-empty nested data that
merely lacks the `app` record, payload construction faults
(`data.data.app.name` dereferences `undefined`), the exception escapes the
handler (no response), and no trigger call is issued — field accesses CAN
fault there. -/
theorem part001_payload_faults_on_missing_app :
    (post1 (oracleConst evtENoApp) (some "whsec_k") true reqStd).verifyCalls = ["0"]
  ∧ (post1 (oracleConst evtENoApp) (some "whsec_k") true reqStd).response = none
  ∧ (post1 (oracleConst evtENoApp) (some "whsec_k") true reqStd).triggers = [] :=
  ⟨rfl, rfl, rfl⟩

/-- C10 counterexample: `part_000`'s shared `subscriberBuilder` guards the
first email entry with optional chaining, so on a verified `user.created`
event whose `email_addresses` list exists but is empty the construction is
total and defaults the email to the empty string — it does not fault. -/
theorem subscriberBuilder_defaults_on_empty_list :
    ∃ sub, subscriberBuilder evtUEmptyList = .ok sub
      ∧ jsGet sub "email" = .ok (.str "")
      ∧ jsGet sub "subscriberId" = .ok (.str "usr_1") :=
  ⟨_, rfl, rfl, rfl⟩

/-- C10 amended: `part_001`'s `user.created` subscriber construction
dereferences the first email entry without a guard, so it faults (before
any trigger call, with the fault escaping the handler) both when
`email_addresses` is empty and when it is absent; `part_000`'s shared
`subscriberBuilder` faults only when the list itself is absent — as when it
receives an `email.created` event, where the fault is caught and the second
`part_000` handler answers 400 without triggering — while an empty list is
handled totally with the email defaulted to the empty string. -/
theorem email_list_fault_semantics_per_handler :
    (∃ e, buildSubscriber1 (.obj [("id", .str "usr_1"), ("email_addresses", .arr [])]) = .error e)
  ∧ (∃ e, buildSubscriber1 (.obj [("id", .str "usr_1")]) = .error e)
  ∧ (post1 (oracleConst evtUEmptyList) (some "whsec_k") true reqStd).response = none
  ∧ (post1 (oracleConst evtUEmptyList) (some "whsec_k") true reqStd).triggers = []
  ∧ (∃ e, subscriberBuilder evtE = .error e)
  ∧ (post3 (oracleConst evtE) (some "whsec_k") true reqStd).triggers = []
  ∧ (post3 (oracleConst evtE) (some "whsec_k") true reqStd).response.map Resp.status = some 400
  ∧ (∃ sub, subscriberBuilder evtUEmptyList = .ok sub ∧ jsGet sub "email" = .ok (.str "")) :=
  ⟨⟨_, rfl⟩, ⟨_, rfl⟩, rfl, rfl, ⟨_, rfl⟩, rfl, rfl, ⟨_, rfl, rfl⟩⟩

/-- C3: with the signing secret configured, a request missing any of the
three svix headers is answered 400 with a body naming the missing svix
headers, and no verify call and no trigger call happens — in each of the
three handlers. -/
theorem missing_header_rejected_without_trigger (verify : VerifyFn) (secret : Option String)
    (trigOk : Bool) (req : Request)
    (hsec : hdrMissing secret = false)
    (hmiss : (hdrMissing req.svixId || hdrMissing req.svixTimestamp || hdrMissing req.svixSignature) = true) :
    post1 verify secret trigOk req = ⟨some ⟨400, "Error: Missing Svix headers"⟩, [], []⟩
  ∧ post2 verify secret trigOk req = ⟨some ⟨400, "Missing Svix headers"⟩, [], []⟩
  ∧ post3 verify secret trigOk req = ⟨some ⟨400, "Error: Missing Svix headers"⟩, [], []⟩ := by
  unfold post1 post2 verifyClerkWebhook post3
  simp [hsec, hmiss]

/-- Witness for C3 at a concrete request with no `svix-id` header. -/
theorem missing_header_rejected_without_trigger_witness :
    post1 oracleFail (some "whsec_k") true reqNoId = ⟨some ⟨400, "Error: Missing Svix headers"⟩, [], []⟩ :=
  (missing_header_rejected_without_trigger oracleFail (some "whsec_k") true reqNoId
    (by decide) (by decide)).1

/-- C2 amended: in the `part_001` handler, once the secret is configured,
the headers are present, the body parses, signature verification succeeds,
and the event mapping completes without fault, the response is 200 — for
both outcomes of the downstream trigger call (which is quantified here). -/
theorem post1_verified_returns_200 (verify : VerifyFn) (secret : Option String)
    (trigOk : Bool) (req : Request) (payload evt : JSVal)
    (hsec : hdrMissing secret = false)
    (hmiss : (hdrMissing req.svixId || hdrMissing req.svixTimestamp || hdrMissing req.svixSignature) = false)
    (hparse : jsonParseStr req.body = .ok payload)
    (hver : verify (secret.getD "") (jsonStringify (req.body.length + 2) payload)
        ⟨req.svixId.getD "", req.svixTimestamp.getD "", req.svixSignature.getD ""⟩ = .ok evt)
    (hmap : (eventHandling1 trigOk evt).err = none) :
    (post1 verify secret trigOk req).response = some ⟨200, "Webhook received"⟩ := by
  unfold post1
  simp [hsec, hmiss, hparse, hver, hmap]

/-- Witness for the amended C2 at a concrete verified request whose event
matches no branch, with the downstream trigger failing. -/
theorem post1_verified_returns_200_witness :
    (post1 (oracleConst evtIgnored) (some "whsec_k") false reqStd).response =
      some ⟨200, "Webhook received"⟩ :=
  post1_verified_returns_200 (oracleConst evtIgnored) (some "whsec_k") false reqStd
    (.num 0) evtIgnored rfl rfl rfl rfl rfl

/-- The `email.created` path of the first `part_000` handler, run on an
event with a recognized slug and truthy nested data: one trigger call with
the hyphenated slug as workflow id and the builder's payload. -/
theorem emailBody2_run (trigOk : Bool) (dfs : List (String × JSVal)) (s : String)
    (b : JSVal → JSM JSVal) (dd pl : JSVal)
    (hslug : jsLookup dfs "slug" = some (.str s))
    (hdd : jsLookup dfs "data" = some dd)
    (hb : lookupBuilder s = some b)
    (htr : jsTruthy dd = true)
    (hpl : b dd = .ok pl) :
    emailBody2 trigOk (.obj [("type", .str "email.created"), ("data", .obj dfs)]) =
      ⟨none, [⟨replaceUnderscores s,
        .obj [("subscriberId",
                .str ("clerk_" ++ jsToString (jsOr ((jsLookup dfs "to_email_address").getD .undef) (.str "")))),
              ("email", jsOr ((jsLookup dfs "to_email_address").getD .undef) (.str ""))],
        pl⟩]⟩ := by
  unfold emailBody2
  simp [jsLookup, hslug, hdd, htr, hpl, hb, jsReplaceU, jsOr_str_empty, jsToString, triggerWorkflow]

/-- The whole dispatcher of the first `part_000` handler on such an event.
-/
theorem eventHandling2_email_run (trigOk : Bool) (dfs : List (String × JSVal)) (s : String)
    (b : JSVal → JSM JSVal) (dd pl : JSVal)
    (hslug : jsLookup dfs "slug" = some (.str s))
    (hdd : jsLookup dfs "data" = some dd)
    (hb : lookupBuilder s = some b)
    (htr : jsTruthy dd = true)
    (hpl : b dd = .ok pl) :
    eventHandling2 trigOk (.obj [("type", .str "email.created"), ("data", .obj dfs)]) =
      ⟨none, [⟨replaceUnderscores s,
        .obj [("subscriberId",
                .str ("clerk_" ++ jsToString (jsOr ((jsLookup dfs "to_email_address").getD .undef) (.str "")))),
              ("email", jsOr ((jsLookup dfs "to_email_address").getD .undef) (.str ""))],
        pl⟩]⟩ := by
  unfold eventHandling2
  rw [emailBody2_run trigOk dfs s b dd pl hslug hdd hb htr hpl]
  simp [typeIs, jsStrEq, jsLookup, HRes.andThen]

/-- C6 amended: in both `part_000` handlers the workflow id for a verified
`email.created` event is the slug with underscores replaced by hyphens
(`workflowBuilder`, and the trigger issued by the first `part_000`
handler); `part_001` instead passes a fixed `clerk-`-prefixed literal per
slug (its counterexample is recorded separately). -/
theorem part000_workflow_is_hyphenated_slug :
    (∀ (evt d : JSVal) (s : String),
        jsGet evt "type" = .ok (.str "email.created") →
        jsGet evt "data" = .ok d →
        jsGet d "slug" = .ok (.str s) →
        workflowBuilder evt = .ok (replaceUnderscores s))
  ∧ (∀ (trigOk : Bool) (dfs : List (String × JSVal)) (s : String)
        (b : JSVal → JSM JSVal) (dd pl : JSVal),
        jsLookup dfs "slug" = some (.str s) →
        jsLookup dfs "data" = some dd →
        lookupBuilder s = some b →
        jsTruthy dd = true →
        b dd = .ok pl →
        (eventHandling2 trigOk (.obj [("type", .str "email.created"), ("data", .obj dfs)])).triggers.map
          TriggerCall.workflowId = [replaceUnderscores s]) := by
  constructor
  · intro evt d s h1 h2 h3
    unfold workflowBuilder
    simp [h1, h2, h3, jsStrEq, jsReplaceU, jsOr_str_empty, jsToString]
  · intro trigOk dfs s b dd pl hslug hdd hb htr hpl
    rw [eventHandling2_email_run trigOk dfs s b dd pl hslug hdd hb htr hpl]
    simp

/-- Witness for the amended C6: the concrete `verification_code` event
yields workflow id `verification-code` in both `part_000` derivations. -/
theorem part000_workflow_is_hyphenated_slug_witness :
    workflowBuilder evtE = .ok "verification-code"
  ∧ (eventHandling2 true (.obj [("type", .str "email.created"),
      ("data", .obj [("slug", .str "verification_code"),
                     ("data", .obj [("otp_code", .str "424242")])])])).triggers.map
      TriggerCall.workflowId = ["verification-code"] := by
  have e : replaceUnderscores "verification_code" = "verification-code" := by decide
  constructor
  · have h := part000_workflow_is_hyphenated_slug.1 evtE
      (.obj [("slug", .str "verification_code"),
             ("to_email_address", .str "b@example.com"),
             ("data", .obj [("otp_code", .str "424242"),
                            ("app", .obj [("name", .str "MyApp")])])])
      "verification_code" rfl rfl rfl
    rw [e] at h
    exact h
  · have h := part000_workflow_is_hyphenated_slug.2 true
      [("slug", .str "verification_code"), ("data", .obj [("otp_code", .str "424242")])]
      "verification_code" vcBuilder (.obj [("otp_code", .str "424242")]) _ rfl rfl rfl rfl rfl
    rw [e] at h
    exact h

theorem vcBuilder_total (fs : List (String × JSVal)) : ∃ p, vcBuilder (.obj fs) = .ok p := by
  obtain ⟨u, hu⟩ := jsGetOpt_total ((jsLookup fs "app").getD .undef) "name"
  exact ⟨.obj [
      ("subject", jsOr ((jsLookup fs "subject").getD .undef) (.str "")),
      ("otp_code", jsOr ((jsLookup fs "otp_code").getD .undef) (.str "")),
      ("app", .obj [("name", jsOr u (.str ""))]),
      ("requested_by", jsOr ((jsLookup fs "requested_by").getD .undef) (.str "")),
      ("requested_from", jsOr ((jsLookup fs "requested_from").getD .undef) (.str "")),
      ("requested_at", jsOr ((jsLookup fs "requested_at").getD .undef) (.str "")),
      ("device", jsOr ((jsLookup fs "requested_by").getD .undef) (.str ""))], by simp [vcBuilder, hu]⟩

theorem pcBuilder_total (fs : List (String × JSVal)) : ∃ p, pcBuilder (.obj fs) = .ok p := by
  obtain ⟨u, hu⟩ := jsGetOpt_total ((jsLookup fs "app").getD .undef) "name"
  exact ⟨.obj [
      ("subject", jsOr ((jsLookup fs "subject").getD .undef) (.str "")),
      ("greeting_name", jsOr ((jsLookup fs "greeting_name").getD .undef) (.str "")),
      ("primary_email_address", jsOr ((jsLookup fs "primary_email_address").getD .undef) (.str "")),
      ("app", .obj [("name", jsOr u (.str ""))]),
      ("requested_by", jsOr ((jsLookup fs "requested_by").getD .undef) (.str "")),
      ("requested_from", jsOr ((jsLookup fs "requested_from").getD .undef) (.str "")),
      ("requested_at", jsOr ((jsLookup fs "requested_at").getD .undef) (.str "")),
      ("device", jsOr ((jsLookup fs "requested_by").getD .undef) (.str ""))], by simp [pcBuilder, hu]⟩

theorem mlBuilder_total (fs : List (String × JSVal)) : ∃ p, mlBuilder (.obj fs) = .ok p := by
  obtain ⟨u, hu⟩ := jsGetOpt_total ((jsLookup fs "app").getD .undef) "name"
  exact ⟨.obj [
      ("subject", jsOr ((jsLookup fs "subject").getD .undef) (.str "")),
      ("magic_link", jsOr ((jsLookup fs "magic_link").getD .undef) (.str "")),
      ("app", .obj [("name", jsOr u (.str ""))]),
      ("ttl_minutes", jsOr ((jsLookup fs "ttl_minutes").getD .undef) (.str "")),
      ("requested_by", jsOr ((jsLookup fs "requested_by").getD .undef) (.str "")),
      ("requested_from", jsOr ((jsLookup fs "requested_from").getD .undef) (.str "")),
      ("requested_at", jsOr ((jsLookup fs "requested_at").getD .undef) (.str "")),
      ("device", jsOr ((jsLookup fs "requested_by").getD .undef) (.str ""))], by simp [mlBuilder, hu]⟩

theorem rpBuilder_total (fs : List (String × JSVal)) : ∃ p, rpBuilder (.obj fs) = .ok p := by
  obtain ⟨u, hu⟩ := jsGetOpt_total ((jsLookup fs "app").getD .undef) "name"
  exact ⟨.obj [
      ("subject", jsOr ((jsLookup fs "subject").getD .undef) (.str "")),
      ("otp_code", jsOr ((jsLookup fs "otp_code").getD .undef) (.str "")),
      ("app_name", jsOr u (.str "")),
      ("requested_by", jsOr ((jsLookup fs "requested_by").getD .undef) (.str "")),
      ("requested_from", jsOr ((jsLookup fs "requested_from").getD .undef) (.str "")),
      ("requested_at", jsOr ((jsLookup fs "requested_at").getD .undef) (.str "")),
      ("device", jsOr ((jsLookup fs "requested_by").getD .undef) (.str ""))], by simp [rpBuilder, hu]⟩

theorem oiBuilder_total (fs : List (String × JSVal)) : ∃ p, oiBuilder (.obj fs) = .ok p := by
  obtain ⟨u, hu⟩ := jsGetOpt_total ((jsLookup fs "org").getD .undef) "name"
  obtain ⟨w, hw⟩ := jsGetOpt_total ((jsLookup fs "app").getD .undef) "name"
  exact ⟨.obj [
      ("subject", jsOr ((jsLookup fs "subject").getD .undef) (.str "")),
      ("inviter_name", jsOr ((jsLookup fs "inviter_name").getD .undef) (.str "")),
      ("org_name", jsOr u (.str "")),
      ("app", .obj [("name", jsOr w (.str ""))]),
      ("action_url", jsOr ((jsLookup fs "action_url").getD .undef) (.str "")),
      ("requested_by", jsOr ((jsLookup fs "requested_by").getD .undef) (.str "")),
      ("requested_from", jsOr ((jsLookup fs "requested_from").getD .undef) (.str "")),
      ("requested_at", jsOr ((jsLookup fs "requested_at").getD .undef) (.str "")),
      ("device", jsOr ((jsLookup fs "requested_by").getD .undef) (.str ""))], by simp [oiBuilder, hu, hw]⟩

theorem inBuilder_total (fs : List (String × JSVal)) : ∃ p, inBuilder (.obj fs) = .ok p := by
  obtain ⟨u, hu⟩ := jsGetOpt_total ((jsLookup fs "app").getD .undef) "name"
  exact ⟨.obj [
      ("subject", jsOr ((jsLookup fs "subject").getD .undef) (.str "")),
      ("otp_code", jsOr ((jsLookup fs "otp_code").getD .undef) (.str "")),
      ("app", .obj [("name", jsOr u (.str ""))]),
      ("requested_by", jsOr ((jsLookup fs "requested_by").getD .undef) (.str "")),
      ("requested_from", jsOr ((jsLookup fs "requested_from").getD .undef) (.str "")),
      ("requested_at", jsOr ((jsLookup fs "requested_at").getD .undef) (.str "")),
      ("device", jsOr ((jsLookup fs "requested_by").getD .undef) (.str ""))], by simp [inBuilder, hu]⟩

/-- C8 amended: `part_000`'s `emailPayloadBuilders` are total on any object
input — every field access is guarded (nested `app`/`org` names via optional
chaining), so no field access can fault there — and on a record with every
source field absent each builder produces the all-empty-string payload
(including the nested app name and the organization name).  `part_001`'s
inline payload blocks, by contrast, can fault (recorded separately as the
counterexample). -/
theorem part000_email_builders_total :
    (∀ name b, (name, b) ∈ emailPayloadBuilders → ∀ fs, ∃ p, b (.obj fs) = .ok p)
  ∧ vcBuilder (.obj []) = .ok (.obj [("subject", .str ""), ("otp_code", .str ""),
      ("app", .obj [("name", .str "")]), ("requested_by", .str ""),
      ("requested_from", .str ""), ("requested_at", .str ""), ("device", .str "")])
  ∧ pcBuilder (.obj []) = .ok (.obj [("subject", .str ""), ("greeting_name", .str ""),
      ("primary_email_address", .str ""), ("app", .obj [("name", .str "")]),
      ("requested_by", .str ""), ("requested_from", .str ""), ("requested_at", .str ""),
      ("device", .str "")])
  ∧ mlBuilder (.obj []) = .ok (.obj [("subject", .str ""), ("magic_link", .str ""),
      ("app", .obj [("name", .str "")]), ("ttl_minutes", .str ""),
      ("requested_by", .str ""), ("requested_from", .str ""), ("requested_at", .str ""),
      ("device", .str "")])
  ∧ rpBuilder (.obj []) = .ok (.obj [("subject", .str ""), ("otp_code", .str ""),
      ("app_name", .str ""), ("requested_by", .str ""), ("requested_from", .str ""),
      ("requested_at", .str ""), ("device", .str "")])
  ∧ oiBuilder (.obj []) = .ok (.obj [("subject", .str ""), ("inviter_name", .str ""),
      ("org_name", .str ""), ("app", .obj [("name", .str "")]), ("action_url", .str ""),
      ("requested_by", .str ""), ("requested_from", .str ""), ("requested_at", .str ""),
      ("device", .str "")])
  ∧ inBuilder (.obj []) = .ok (.obj [("subject", .str ""), ("otp_code", .str ""),
      ("app", .obj [("name", .str "")]), ("requested_by", .str ""),
      ("requested_from", .str ""), ("requested_at", .str ""), ("device", .str "")]) := by
  refine ⟨?_, rfl, rfl, rfl, rfl, rfl, rfl⟩
  intro name b h fs
  simp [emailPayloadBuilders] at h
  rcases h with ⟨-, rfl⟩ | ⟨-, rfl⟩ | ⟨-, rfl⟩ | ⟨-, rfl⟩ | ⟨-, rfl⟩ | ⟨-, rfl⟩
  · exact vcBuilder_total fs
  · exact pcBuilder_total fs
  · exact mlBuilder_total fs
  · exact rpBuilder_total fs
  · exact oiBuilder_total fs
  · exact inBuilder_total fs

/-- Witness for the amended C8: the `verification_code` builder applied to
nested data lacking the `app` record succeeds rather than faulting. -/
theorem part000_email_builders_total_witness :
    ∃ p, vcBuilder (.obj [("otp_code", .str "424242")]) = .ok p :=
  part000_email_builders_total.1 "verification_code" vcBuilder
    (by simp [emailPayloadBuilders]) [("otp_code", .str "424242")]

/-- An `email.created` event with slug `verification_code` whose nested
data record carries a `subject` while the event data's top level does not.
-/
def evtENestedSubject : JSVal :=
  .obj [("type", .str "email.created"),
        ("data", .obj [("slug", .str "verification_code"),
                       ("to_email_address", .str "b@example.com"),
                       ("data", .obj [("subject", .str "Nested subject"),
                                      ("otp_code", .str "424242"),
                                      ("app", .obj [("name", .str "MyApp")])])])]

/-- C7 counterexample: for a verified `verification_code` event whose
nested data record carries `subject` (and `otp_code`), the payload that
`part_001` passes to its trigger call contains neither field at the top
level — everything is nested under `body.data` — and even there `subject`
is copied from the event data's top-level `data.subject` (absent here, so
the empty string), not verbatim from the nested record's
`"Nested subject"`. -/
theorem part001_verification_payload_nested_not_copied :
    (post1 (oracleConst evtENestedSubject) (some "whsec_k") true reqStd).triggers.map
      TriggerCall.payload
      = [.obj [("body", .obj [("data", .obj [
          ("subject", .str ""),
          ("otp_code", .str "424242"),
          ("app", .obj [("name", .str "MyApp")]),
          ("requested_by", .str ""),
          ("requested_from", .str ""),
          ("requested_at", .str ""),
          ("device", .str "")])])]]
  ∧ (post1 (oracleConst evtENestedSubject) (some "whsec_k") true reqStd).triggers.map
      (fun c => jsGet c.payload "subject") = [.ok (.undef)]
  ∧ (post1 (oracleConst evtENestedSubject) (some "whsec_k") true reqStd).triggers.map
      (fun c => jsGet c.payload "otp_code") = [.ok (.undef)]
  ∧ (jsGet evtENestedSubject "data" >>= fun d => jsGet d "data" >>= fun dd =>
      jsGet dd "subject") = .ok (.str "Nested subject")
  ∧ JSVal.str "" ≠ JSVal.str "Nested subject" :=
  ⟨rfl, rfl, rfl, rfl, by simp⟩

/-- C7 amended: for a verified `email.created` event with slug
`verification_code` and non-empty (truthy) nested data, the payload passed
to the trigger call by the first `part_000` handler contains top-level
fields `subject` and `otp_code` copied verbatim from the nested record,
each defaulting to the empty string when the source field is absent;
`part_001` instead nests the fields under `body.data` and copies `subject`
from the event data's top level rather than the nested record (its
counterexample is recorded separately). -/
theorem verification_code_payload_copies_fields (trigOk : Bool)
    (dfs fs : List (String × JSVal))
    (hslug : jsLookup dfs "slug" = some (.str "verification_code"))
    (hdd : jsLookup dfs "data" = some (.obj fs)) :
    ∃ pl, vcBuilder (.obj fs) = .ok pl
      ∧ (eventHandling2 trigOk (.obj [("type", .str "email.created"), ("data", .obj dfs)])).triggers.map
          TriggerCall.payload = [pl]
      ∧ (∀ s, jsLookup fs "subject" = some (.str s) → jsGet pl "subject" = .ok (.str s))
      ∧ (jsLookup fs "subject" = none → jsGet pl "subject" = .ok (.str ""))
      ∧ (∀ s, jsLookup fs "otp_code" = some (.str s) → jsGet pl "otp_code" = .ok (.str s))
      ∧ (jsLookup fs "otp_code" = none → jsGet pl "otp_code" = .ok (.str "")) := by
  obtain ⟨u, hu⟩ := jsGetOpt_total ((jsLookup fs "app").getD .undef) "name"
  have hpl : vcBuilder (.obj fs) = .ok (.obj [
      ("subject", jsOr ((jsLookup fs "subject").getD .undef) (.str "")),
      ("otp_code", jsOr ((jsLookup fs "otp_code").getD .undef) (.str "")),
      ("app", .obj [("name", jsOr u (.str ""))]),
      ("requested_by", jsOr ((jsLookup fs "requested_by").getD .undef) (.str "")),
      ("requested_from", jsOr ((jsLookup fs "requested_from").getD .undef) (.str "")),
      ("requested_at", jsOr ((jsLookup fs "requested_at").getD .undef) (.str "")),
      ("device", jsOr ((jsLookup fs "requested_by").getD .undef) (.str ""))]) := by
    simp [vcBuilder, hu]
  refine ⟨_, hpl, ?_, ?_, ?_, ?_, ?_⟩
  · rw [eventHandling2_email_run trigOk dfs "verification_code" vcBuilder (.obj fs) _
      hslug hdd rfl rfl hpl]
    simp
  · intro s hs
    simp [jsLookup, hs, jsOr_str_empty]
  · intro hs
    simp [jsLookup, hs, jsOr, jsTruthy]
  · intro s hs
    simp [jsLookup, hs, jsOr_str_empty]
  · intro hs
    simp [jsLookup, hs, jsOr, jsTruthy]

/-- Witness for C7 at a concrete event carrying both fields. -/
theorem verification_code_payload_copies_fields_witness :
    ∃ pl, vcBuilder (.obj [("subject", .str "Your code"), ("otp_code", .str "424242")]) = .ok pl
      ∧ jsGet pl "subject" = .ok (.str "Your code")
      ∧ jsGet pl "otp_code" = .ok (.str "424242") := by
  obtain ⟨pl, h1, h2, h3, -, h5, -⟩ :=
    verification_code_payload_copies_fields true
      [("slug", .str "verification_code"),
       ("data", .obj [("subject", .str "Your code"), ("otp_code", .str "424242")])]
      [("subject", .str "Your code"), ("otp_code", .str "424242")] rfl rfl
  exact ⟨pl, h1, h3 "Your code" rfl, h5 "424242" rfl⟩
